import Mathlib

/-!
Verification of the TKY2JGD coordinate converter (src/tky2jgd.py).

The program converts Tokyo-Datum coordinates to JGD2000 using a grid of
correction parameters.  We embed the arithmetic of the Python source over ℚ
(exact rational arithmetic in place of IEEE floats), with Python math.trunc
modelled by truncation toward zero, Python floor division and modulus (used
only with the positive divisors 100 and 10, where they agree with Euclidean
division) modelled by Lean integer division and modulus on ℤ, and Python
exceptions (the assert statements in lat_lon2mesh_code) modelled by Option.
-/

/-- Python math.trunc on rationals: truncation toward zero. -/
def trunc (q : ℚ) : ℤ := if 0 ≤ q then ⌊q⌋ else -⌊-q⌋

/-- The epsilon nudge 0.00000000001 added before truncating the tertiary
digits in lat_lon2mesh_code (source lines 132-133). -/
def EPS : ℚ := 0.00000000001

/-- The MeshCode class of the source: three packed mesh-code levels plus
the fractional offset inside the tertiary cell.  Python object-construction
defaults (mlat=0.0, mlon=0.0) are passed explicitly at each use site. -/
structure MeshCode where
  mesh_code1 : ℤ
  mesh_code2 : ℤ
  mesh_code3 : ℤ
  mod_latitude : ℚ
  mod_longitude : ℚ
deriving DecidableEq

/-- The mesh_code123 property: the combined lookup key. -/
def MeshCode.mesh_code123 (mc : MeshCode) : ℤ :=
  mc.mesh_code1 * 10000 + mc.mesh_code2 * 100 + mc.mesh_code3

/-- lat_lon2mesh_code (source lines 115-164).  The six digit values, the
carry normalization for a tertiary digit that reached 10, the fractional
offsets, and the four assert range checks (modelled by returning none
on violation, some otherwise). -/
def lat_lon2mesh_code (lat lon : ℚ) : Option MeshCode :=
  let lat1 := trunc (lat * 1.5)
  let lon1 := trunc lon - 100
  let lat2 := trunc (8.0 * (1.5 * lat - (lat1 : ℚ)))
  let lon2 := trunc (8.0 * (lon - ((lon1 : ℚ) + 100)))
  let lat3 := trunc (10.0 * (12.0 * lat - 8.0 * (lat1 : ℚ) - (lat2 : ℚ)) + EPS)
  let lon3 := trunc (10.0 * (8.0 * (lon - ((lon1 : ℚ) + 100)) - (lon2 : ℚ)) + EPS)
  let latD : ℤ × ℤ × ℤ :=
    if lat3 = 10 then
      if lat2 + 1 = 8 then (lat1 + 1, 0, 0) else (lat1, lat2 + 1, 0)
    else (lat1, lat2, lat3)
  let lonD : ℤ × ℤ × ℤ :=
    if lon3 = 10 then
      if lon2 + 1 = 8 then (lon1 + 1, 0, 0) else (lon1, lon2 + 1, 0)
    else (lon1, lon2, lon3)
  let mlat := 120.0 * lat - 80.0 * (latD.1 : ℚ) - 10 * (latD.2.1 : ℚ) - (latD.2.2 : ℚ)
  let mlon := 80.0 * (lon - ((lonD.1 : ℚ) + 100)) - 10 * (lonD.2.1 : ℚ) - (lonD.2.2 : ℚ)
  if 0 ≤ latD.2.1 ∧ latD.2.1 ≤ 7 ∧ 0 ≤ lonD.2.1 ∧ lonD.2.1 ≤ 7 ∧
     0 ≤ latD.2.2 ∧ latD.2.2 ≤ 9 ∧ 0 ≤ lonD.2.2 ∧ lonD.2.2 ≤ 9 then
    some (MeshCode.mk (latD.1 * 100 + lonD.1) (latD.2.1 * 10 + lonD.2.1)
      (latD.2.2 * 10 + lonD.2.2) mlat mlon)
  else none

/-- tonari_mesh_code (source lines 167-229): the east, north and
north-east neighbors of a mesh code. -/
def tonari_mesh_code (mesh_code : MeshCode) : MeshCode × MeshCode × MeshCode :=
  let lat1 := mesh_code.mesh_code1 / 100
  let lon1 := mesh_code.mesh_code1 % 100
  let lat2 := mesh_code.mesh_code2 / 10
  let lon2 := mesh_code.mesh_code2 % 10
  let lat3 := mesh_code.mesh_code3 / 10
  let lon3 := mesh_code.mesh_code3 % 10
  -- calc east
  let lonE : ℤ × ℤ × ℤ :=
    if lon3 ≠ 9 then (lon1, lon2, lon3 + 1)
    else if lon2 ≠ 7 then (lon1, lon2 + 1, 0)
    else (lon1 + 1, 0, 0)
  let mesh_code_east := MeshCode.mk (lat1 * 100 + lonE.1) (lat2 * 10 + lonE.2.1)
    (lat3 * 10 + lonE.2.2) 0 0
  -- calc north
  let latN : ℤ × ℤ × ℤ :=
    if lat3 ≠ 9 then (lat1, lat2, lat3 + 1)
    else if lat2 ≠ 7 then (lat1, lat2 + 1, 0)
    else (lat1 + 1, 0, 0)
  let mesh_code_north := MeshCode.mk (latN.1 * 100 + lon1) (latN.2.1 * 10 + lon2)
    (latN.2.2 * 10 + lon3) 0 0
  -- north east
  let mesh_code_north_east := MeshCode.mk (latN.1 * 100 + lonE.1)
    (latN.2.1 * 10 + lonE.2.1) (latN.2.2 * 10 + lonE.2.2) 0 0
  (mesh_code_east, mesh_code_north, mesh_code_north_east)

/-- interpol (source lines 73-90): bilinear interpolation on the unit
square. -/
def interpol (u1 u2 u3 u4 X0to1 Y0to1 : ℚ) : ℚ :=
  let a := u1
  let B := u2 - u1
  let C := u3 - u1
  let D := u4 - u2 - u3 + u1
  a + B * X0to1 + C * Y0to1 + D * X0to1 * Y0to1

/-- bilinear (source lines 30-70).  The parameter table PAR is passed
explicitly as a map into Option.  Result: none models an uncaught exception
(an assertion failure inside lat_lon2mesh_code), some none models the
Python return value (None, None) for points without coverage, and
some (some (dB, dL)) models a computed correction. -/
def bilinear (PAR : ℤ → Option (ℚ × ℚ)) (lat lon : ℚ) : Option (Option (ℚ × ℚ)) :=
  if lat < 20 ∨ lat > 46 ∨ lon < 120 ∨ lon > 154 then some none
  else
    match lat_lon2mesh_code lat lon with
    | none => none
    | some MC0 =>
      let MCE := (tonari_mesh_code MC0).1
      let MCN := (tonari_mesh_code MC0).2.1
      let MCNE := (tonari_mesh_code MC0).2.2
      match PAR MC0.mesh_code123, PAR MCE.mesh_code123,
            PAR MCN.mesh_code123, PAR MCNE.mesh_code123 with
      | some p0, some pE, some pN, some pNE =>
        some (some
          (interpol p0.1 pE.1 pN.1 pNE.1 MC0.mod_longitude MC0.mod_latitude,
           interpol p0.2 pE.2 pN.2 pNE.2 MC0.mod_longitude MC0.mod_latitude))
      | _, _, _, _ => some none

/-- The output of main (source lines 248-254) once the parameter file is
loaded: the pair that is printed, as a function of the bilinear result.
Here none models an uncaught exception propagating out of bilinear. -/
def main_output (PAR : ℤ → Option (ℚ × ℚ)) (lat lon : ℚ) : Option (ℚ × ℚ) :=
  match bilinear PAR lat lon with
  | none => none
  | some none => some (-9999.0, -9999.0)
  | some (some (dB, dL)) => some (lat + dB / 3600, lon + dL / 3600)

/-- A concrete parameter table for the scenario of the specification:
entries for mesh code 54380000 and its east, north and north-east
neighbors. -/
def PAR0 : ℤ → Option (ℚ × ℚ) := fun k =>
  if k = 54380000 then some (12.345, -5.678)
  else if k = 54380001 then some (12.445, -5.578)
  else if k = 54380010 then some (12.545, -5.478)
  else if k = 54380011 then some (12.645, -5.378)
  else none

/-- Carry-aware increment of one digit chain (primary, secondary, tertiary)
by one mesh step, as the specification describes the neighbor derivation:
tertiary digit plus one; past 9 it resets to 0 and carries into the
secondary digit; past 7 that resets to 0 and carries into the primary
component. -/
def incr_digits (d : ℤ × ℤ × ℤ) : ℤ × ℤ × ℤ :=
  if 9 < d.2.2 + 1 then
    if 7 < d.2.1 + 1 then (d.1 + 1, 0, 0) else (d.1, d.2.1 + 1, 0)
  else (d.1, d.2.1, d.2.2 + 1)

/-- The latitude digit chain of a mesh code, extracted exactly the way
tonari_mesh_code decomposes its argument. -/
def lat_digits (mc : MeshCode) : ℤ × ℤ × ℤ :=
  (mc.mesh_code1 / 100, mc.mesh_code2 / 10, mc.mesh_code3 / 10)

/-- The longitude digit chain of a mesh code, extracted exactly the way
tonari_mesh_code decomposes its argument. -/
def lon_digits (mc : MeshCode) : ℤ × ℤ × ℤ :=
  (mc.mesh_code1 % 100, mc.mesh_code2 % 10, mc.mesh_code3 % 10)

/-- Repack a latitude digit chain and a longitude digit chain into a
MeshCode with zero fractional offset. -/
def pack_mesh (latD lonD : ℤ × ℤ × ℤ) : MeshCode :=
  MeshCode.mk (latD.1 * 100 + lonD.1) (latD.2.1 * 10 + lonD.2.1)
    (latD.2.2 * 10 + lonD.2.2) 0 0

/- Parameter-file parsing (source lines 16-25).  A line matches the record
pattern (an integer, whitespace, a signed decimal, whitespace, a signed
decimal) anchored at the start of the line; matching lines contribute an
entry, others are skipped.  Every alternation point of the regex is
deterministic (digits, whitespace and the dot are disjoint, and a consumed
minus sign must be followed by a digit), so greedy maximal-munch parsing
computes exactly the regex match. -/

/-- The whitespace class of the regex (ASCII). -/
def isSpaceChar (c : Char) : Bool :=
  c == ' ' || c == '\t' || c == '\n' || c == '\r' || c == '\x0b' || c == '\x0c'

/-- Value of a digit string, as Python int parses a captured group. -/
def natOfDigits (ds : List Char) : ℕ :=
  ds.foldl (fun n c => 10 * n + (c.toNat - 48)) 0

/-- Consume one or more digits. -/
def munchDigits (cs : List Char) : Option (List Char × List Char) :=
  let ds := cs.takeWhile Char.isDigit
  if ds.isEmpty then none else some (ds, cs.dropWhile Char.isDigit)

/-- Consume one or more whitespace characters. -/
def munchSpaces (cs : List Char) : Option (List Char) :=
  let ds := cs.takeWhile isSpaceChar
  if ds.isEmpty then none else some (cs.dropWhile isSpaceChar)

/-- Exact rational value of a signed decimal capture, as Python float
parses it (modelled exactly over ℚ). -/
def decValue (neg : Bool) (ip fp : List Char) : ℚ :=
  let mag : ℚ := (natOfDigits ip : ℚ) + (natOfDigits fp : ℚ) / (10 : ℚ) ^ fp.length
  if neg then -mag else mag

/-- Consume a signed decimal: optional minus sign, digits, dot, digits. -/
def munchDecimal (cs : List Char) : Option (ℚ × List Char) :=
  let signSplit : Bool × List Char :=
    match cs with
    | '-' :: rest => (true, rest)
    | _ => (false, cs)
  match munchDigits signSplit.2 with
  | none => none
  | some (ip, cs2) =>
    match cs2 with
    | '.' :: cs3 =>
      match munchDigits cs3 with
      | none => none
      | some (fp, cs4) => some (decValue signSplit.1 ip fp, cs4)
    | _ => none

/-- Parse of one line: the captured mesh code and the two decimal captures,
or none when the regex does not match the line. -/
def parLineParse (cs : List Char) : Option (ℤ × ℚ × ℚ) :=
  match munchDigits cs with
  | none => none
  | some (code, cs1) =>
    match munchSpaces cs1 with
    | none => none
    | some cs2 =>
      match munchDecimal cs2 with
      | none => none
      | some (v1, cs3) =>
        match munchSpaces cs3 with
        | none => none
        | some cs4 =>
          match munchDecimal cs4 with
          | none => none
          | some (v2, _) => some ((natOfDigits code : ℤ), v1, v2)

/-- One iteration of the load_parameter loop: a matching line overwrites
the store at its code, a non-matching line leaves the store unchanged. -/
def load_step (PAR : ℤ → Option (ℚ × ℚ)) (line : List Char) : ℤ → Option (ℚ × ℚ) :=
  match parLineParse line with
  | none => PAR
  | some (c, v1, v2) => fun k => if k = c then some (v1, v2) else PAR k

/-- load_parameter (source lines 18-25): fold the loop over the lines of
the file, starting from the empty table. -/
def load_parameter (ls : List (List Char)) : ℤ → Option (ℚ × ℚ) :=
  ls.foldl load_step (fun _ => none)

/- Per-axis analysis of lat_lon2mesh_code.  Both the latitude chain (on
x = lat * 1.5) and the longitude chain (on x = lon, with the -100 shift on
the primary component) compute the same three digits and the same offset. -/

/-- Primary digit value of one axis. -/
def adig1 (x : ℚ) : ℤ := trunc x

/-- Secondary digit value of one axis. -/
def adig2 (x : ℚ) : ℤ := trunc (8 * (x - (adig1 x : ℚ)))

/-- Tertiary digit value of one axis, with the EPS nudge. -/
def adig3 (x : ℚ) : ℤ := trunc (10 * (8 * (x - (adig1 x : ℚ)) - (adig2 x : ℚ)) + EPS)

/-- The carry-normalized digit triple of one axis. -/
def acarry (x : ℚ) : ℤ × ℤ × ℤ :=
  if adig3 x = 10 then
    if adig2 x + 1 = 8 then (adig1 x + 1, 0, 0) else (adig1 x, adig2 x + 1, 0)
  else (adig1 x, adig2 x, adig3 x)

/-- The fractional offset of one axis, computed from the carry-normalized
digits. -/
def aoff (x : ℚ) : ℚ :=
  80 * (x - ((acarry x).1 : ℚ)) - 10 * ((acarry x).2.1 : ℚ) - ((acarry x).2.2 : ℚ)

/-- The geometry of section 4.1 of the specification, written from the
formulas of the spec itself: floor-based digit extraction, the EPS = 1e-11
nudge added before truncation of the tertiary digits, and the carry
normalization rule (a tertiary digit of 10 resets to 0 and increments the
secondary digit; a secondary digit pushed to 8 resets to 0 and increments
the primary component), followed by the fractional-offset formulas. -/
def latLon2meshCodeSpec (lat lon : ℚ) : MeshCode :=
  let lat1 := ⌊lat * 1.5⌋
  let lon1 := ⌊lon⌋ - 100
  let lat2 := ⌊8.0 * (1.5 * lat - (lat1 : ℚ))⌋
  let lon2 := ⌊8.0 * (lon - ((lon1 : ℚ) + 100))⌋
  let lat3 := ⌊10.0 * (12.0 * lat - 8.0 * (lat1 : ℚ) - (lat2 : ℚ)) + EPS⌋
  let lon3 := ⌊10.0 * (8.0 * (lon - ((lon1 : ℚ) + 100)) - (lon2 : ℚ)) + EPS⌋
  let latD : ℤ × ℤ × ℤ :=
    if lat3 = 10 then
      if lat2 + 1 = 8 then (lat1 + 1, 0, 0) else (lat1, lat2 + 1, 0)
    else (lat1, lat2, lat3)
  let lonD : ℤ × ℤ × ℤ :=
    if lon3 = 10 then
      if lon2 + 1 = 8 then (lon1 + 1, 0, 0) else (lon1, lon2 + 1, 0)
    else (lon1, lon2, lon3)
  let frac_lat := 120.0 * lat - 80.0 * (latD.1 : ℚ) - 10 * (latD.2.1 : ℚ) - (latD.2.2 : ℚ)
  let frac_lon := 80.0 * (lon - ((lonD.1 : ℚ) + 100)) - 10 * (lonD.2.1 : ℚ) - (lonD.2.2 : ℚ)
  MeshCode.mk (latD.1 * 100 + lonD.1) (latD.2.1 * 10 + lonD.2.1)
    (latD.2.2 * 10 + lonD.2.2) frac_lat frac_lon

/- Helper lemmas. -/

lemma MeshCode.eq_of_fields {x y : MeshCode}
    (h1 : x.mesh_code1 = y.mesh_code1) (h2 : x.mesh_code2 = y.mesh_code2)
    (h3 : x.mesh_code3 = y.mesh_code3) (h4 : x.mod_latitude = y.mod_latitude)
    (h5 : x.mod_longitude = y.mod_longitude) : x = y := by
  cases x
  cases y
  simp_all

lemma mesh_36_138 : lat_lon2mesh_code 36 138 = some (MeshCode.mk 5438 0 0 0 0) := by
  norm_num [lat_lon2mesh_code, trunc, EPS]

lemma load_step_skip (PAR : ℤ → Option (ℚ × ℚ)) (line : List Char)
    (h : parLineParse line = none) : load_step PAR line = PAR := by
  simp [load_step, h]

lemma load_foldl_filter (ls : List (List Char)) :
    ∀ PAR : ℤ → Option (ℚ × ℚ),
      ls.foldl load_step PAR =
        (ls.filter (fun l => (parLineParse l).isSome)).foldl load_step PAR := by
  induction ls with
  | nil => intro PAR; rfl
  | cons l ls ih =>
    intro PAR
    by_cases h : (parLineParse l).isSome
    · simp [List.filter, h, List.foldl_cons, ih]
    · simp only [Option.not_isSome_iff_eq_none] at h
      simp [List.filter, load_step_skip _ _ h, h, List.foldl_cons, ih]

lemma load_foldl_mono (ls : List (List Char)) :
    ∀ (PAR : ℤ → Option (ℚ × ℚ)) (c : ℤ),
      (PAR c).isSome → ((ls.foldl load_step PAR) c).isSome := by
  induction ls with
  | nil => intro PAR c h; exact h
  | cons l ls ih =>
    intro PAR c h
    simp only [List.foldl_cons]
    apply ih
    unfold load_step
    match hp : parLineParse l with
    | none => exact h
    | some (c0, v1, v2) =>
      by_cases hc : c = c0 <;> simp [hc, h]

lemma load_foldl_mem (ls : List (List Char)) :
    ∀ (PAR : ℤ → Option (ℚ × ℚ)) (l : List Char) (c : ℤ) (v1 v2 : ℚ),
      l ∈ ls → parLineParse l = some (c, v1, v2) →
      ((ls.foldl load_step PAR) c).isSome := by
  induction ls with
  | nil => intro _ _ _ _ _ h; cases h
  | cons l0 ls ih =>
    intro PAR l c v1 v2 hmem hp
    rcases List.mem_cons.mp hmem with rfl | hmem
    · simp only [List.foldl_cons]
      apply load_foldl_mono
      simp [load_step, hp]
    · exact ih _ _ _ _ _ hmem hp

lemma trunc_of_nonneg (q : ℚ) (h : 0 ≤ q) : trunc q = ⌊q⌋ := if_pos h

lemma EPS_pos : 0 < EPS := by norm_num [EPS]

lemma EPS_lt_one : EPS < 1 := by norm_num [EPS]

lemma adig1_eq (x : ℚ) (hx : 0 ≤ x) : adig1 x = ⌊x⌋ := trunc_of_nonneg x hx

lemma sub_adig1_bounds (x : ℚ) (hx : 0 ≤ x) :
    0 ≤ x - (adig1 x : ℚ) ∧ x - (adig1 x : ℚ) < 1 := by
  rw [adig1_eq x hx]
  constructor
  · linarith [Int.floor_le x]
  · linarith [Int.lt_floor_add_one x]

lemma adig2_eq (x : ℚ) (hx : 0 ≤ x) : adig2 x = ⌊8 * (x - (adig1 x : ℚ))⌋ := by
  unfold adig2
  apply trunc_of_nonneg
  have h := (sub_adig1_bounds x hx).1
  linarith

lemma adig2_bounds (x : ℚ) (hx : 0 ≤ x) : 0 ≤ adig2 x ∧ adig2 x ≤ 7 := by
  obtain ⟨h0, h1⟩ := sub_adig1_bounds x hx
  rw [adig2_eq x hx]
  constructor
  · exact Int.floor_nonneg.mpr (by linarith)
  · have h8 : (8 : ℚ) * (x - (adig1 x : ℚ)) < ((8 : ℤ) : ℚ) := by push_cast; linarith
    have := Int.floor_lt.mpr h8
    omega

lemma F2_bounds (x : ℚ) (hx : 0 ≤ x) :
    0 ≤ 8 * (x - (adig1 x : ℚ)) - (adig2 x : ℚ) ∧
      8 * (x - (adig1 x : ℚ)) - (adig2 x : ℚ) < 1 := by
  rw [adig2_eq x hx]
  constructor
  · linarith [Int.floor_le (8 * (x - (adig1 x : ℚ)))]
  · linarith [Int.lt_floor_add_one (8 * (x - (adig1 x : ℚ)))]

lemma adig3_eq (x : ℚ) (hx : 0 ≤ x) :
    adig3 x = ⌊10 * (8 * (x - (adig1 x : ℚ)) - (adig2 x : ℚ)) + EPS⌋ := by
  unfold adig3
  apply trunc_of_nonneg
  have h := (F2_bounds x hx).1
  have := EPS_pos
  linarith

lemma adig3_le (x : ℚ) (hx : 0 ≤ x) :
    (adig3 x : ℚ) ≤ 10 * (8 * (x - (adig1 x : ℚ)) - (adig2 x : ℚ)) + EPS := by
  rw [adig3_eq x hx]
  exact Int.floor_le _

lemma lt_adig3_add_one (x : ℚ) (hx : 0 ≤ x) :
    10 * (8 * (x - (adig1 x : ℚ)) - (adig2 x : ℚ)) + EPS < (adig3 x : ℚ) + 1 := by
  rw [adig3_eq x hx]
  push_cast
  exact Int.lt_floor_add_one _

lemma adig3_bounds (x : ℚ) (hx : 0 ≤ x) : 0 ≤ adig3 x ∧ adig3 x ≤ 10 := by
  obtain ⟨h0, h1⟩ := F2_bounds x hx
  rw [adig3_eq x hx]
  constructor
  · exact Int.floor_nonneg.mpr (by linarith [EPS_pos])
  · have h11 : 10 * (8 * (x - (adig1 x : ℚ)) - (adig2 x : ℚ)) + EPS < ((11 : ℤ) : ℚ) := by
      push_cast
      linarith [EPS_lt_one]
    have := Int.floor_lt.mpr h11
    omega

lemma acarry_digit_bounds (x : ℚ) (hx : 0 ≤ x) :
    0 ≤ (acarry x).2.1 ∧ (acarry x).2.1 ≤ 7 ∧ 0 ≤ (acarry x).2.2 ∧ (acarry x).2.2 ≤ 9 := by
  obtain ⟨a20, a27⟩ := adig2_bounds x hx
  obtain ⟨a30, a310⟩ := adig3_bounds x hx
  unfold acarry
  split_ifs <;> dsimp only <;> omega

lemma aoff_bounds (x : ℚ) (hx : 0 ≤ x) : -EPS ≤ aoff x ∧ aoff x < 1 := by
  obtain ⟨a20, a27⟩ := adig2_bounds x hx
  obtain ⟨f20, f21⟩ := F2_bounds x hx
  have hle := adig3_le x hx
  have hlt := lt_adig3_add_one x hx
  have hE0 := EPS_pos
  have hE1 := EPS_lt_one
  unfold aoff acarry
  split_ifs with h1 h2 <;> dsimp only
  · -- tertiary carry, then the secondary carry into the primary component
    have hq2 : ((adig2 x : ℤ) : ℚ) = 7 := by
      exact_mod_cast congrArg (Int.cast : ℤ → ℚ) (by omega : adig2 x = (7 : ℤ))
    rw [h1] at hle
    push_cast at hle ⊢
    constructor <;> nlinarith
  · -- tertiary carry only
    rw [h1] at hle
    push_cast at hle ⊢
    constructor <;> nlinarith
  · -- no carry
    push_cast
    constructor <;> nlinarith

lemma lat_lon2mesh_code_eq (lat lon : ℚ) :
    lat_lon2mesh_code lat lon =
      if 0 ≤ (acarry (lat * 1.5)).2.1 ∧ (acarry (lat * 1.5)).2.1 ≤ 7 ∧
         0 ≤ (acarry lon).2.1 ∧ (acarry lon).2.1 ≤ 7 ∧
         0 ≤ (acarry (lat * 1.5)).2.2 ∧ (acarry (lat * 1.5)).2.2 ≤ 9 ∧
         0 ≤ (acarry lon).2.2 ∧ (acarry lon).2.2 ≤ 9 then
        some (MeshCode.mk ((acarry (lat * 1.5)).1 * 100 + ((acarry lon).1 - 100))
          ((acarry (lat * 1.5)).2.1 * 10 + (acarry lon).2.1)
          ((acarry (lat * 1.5)).2.2 * 10 + (acarry lon).2.2)
          (aoff (lat * 1.5)) (aoff lon))
      else none := by
  have e2 : trunc (8.0 * (1.5 * lat - ((trunc (lat * 1.5) : ℤ) : ℚ))) = adig2 (lat * 1.5) := by
    unfold adig2 adig1
    congr 1
    ring
  have f2 : trunc (8.0 * (lon - (((trunc lon - 100 : ℤ) : ℚ) + 100))) = adig2 lon := by
    unfold adig2 adig1
    congr 1
    push_cast
    ring
  simp only [lat_lon2mesh_code]
  rw [e2, f2]
  have e3 : trunc (10.0 * (12.0 * lat - 8.0 * ((trunc (lat * 1.5) : ℤ) : ℚ) -
      ((adig2 (lat * 1.5) : ℤ) : ℚ)) + EPS) = adig3 (lat * 1.5) := by
    unfold adig3 adig1
    congr 1
    ring
  have f3 : trunc (10.0 * (8.0 * (lon - (((trunc lon - 100 : ℤ) : ℚ) + 100)) -
      ((adig2 lon : ℤ) : ℚ)) + EPS) = adig3 lon := by
    unfold adig3 adig1
    congr 1
    push_cast
    ring
  rw [e3, f3]
  rw [show trunc (lat * 1.5) = adig1 (lat * 1.5) from rfl, show trunc lon = adig1 lon from rfl]
  rw [show (if adig3 (lat * 1.5) = 10 then
        if adig2 (lat * 1.5) + 1 = 8 then (adig1 (lat * 1.5) + 1, (0 : ℤ), (0 : ℤ))
        else (adig1 (lat * 1.5), adig2 (lat * 1.5) + 1, 0)
      else (adig1 (lat * 1.5), adig2 (lat * 1.5), adig3 (lat * 1.5))) = acarry (lat * 1.5) from rfl]
  rw [show (if adig3 lon = 10 then
        if adig2 lon + 1 = 8 then (adig1 lon - 100 + 1, (0 : ℤ), (0 : ℤ))
        else (adig1 lon - 100, adig2 lon + 1, 0)
      else (adig1 lon - 100, adig2 lon, adig3 lon)) =
      ((acarry lon).1 - 100, (acarry lon).2.1, (acarry lon).2.2) by
    unfold acarry
    split_ifs <;> dsimp only <;> simp [Prod.ext_iff] <;> omega]
  dsimp only
  rw [show 120.0 * lat - 80.0 * (((acarry (lat * 1.5)).1 : ℤ) : ℚ) -
      10 * (((acarry (lat * 1.5)).2.1 : ℤ) : ℚ) - (((acarry (lat * 1.5)).2.2 : ℤ) : ℚ) =
      aoff (lat * 1.5) by
    unfold aoff
    ring]
  rw [show 80.0 * (lon - ((((acarry lon).1 - 100 : ℤ) : ℚ) + 100)) -
      10 * (((acarry lon).2.1 : ℤ) : ℚ) - (((acarry lon).2.2 : ℤ) : ℚ) = aoff lon by
    unfold aoff
    push_cast
    ring]

lemma latLon2meshCodeSpec_eq (lat lon : ℚ) (hlat : 0 ≤ lat) (hlon : 0 ≤ lon) :
    latLon2meshCodeSpec lat lon =
      MeshCode.mk ((acarry (lat * 1.5)).1 * 100 + ((acarry lon).1 - 100))
        ((acarry (lat * 1.5)).2.1 * 10 + (acarry lon).2.1)
        ((acarry (lat * 1.5)).2.2 * 10 + (acarry lon).2.2)
        (aoff (lat * 1.5)) (aoff lon) := by
  have hx : (0 : ℚ) ≤ lat * 1.5 := by linarith
  have s1 : ⌊lat * 1.5⌋ = adig1 (lat * 1.5) := (adig1_eq _ hx).symm
  have t1 : ⌊lon⌋ = adig1 lon := (adig1_eq _ hlon).symm
  have s2 : ⌊8.0 * (1.5 * lat - ((adig1 (lat * 1.5) : ℤ) : ℚ))⌋ = adig2 (lat * 1.5) := by
    rw [adig2_eq _ hx]
    congr 1
    ring
  have t2 : ⌊8.0 * (lon - (((adig1 lon - 100 : ℤ) : ℚ) + 100))⌋ = adig2 lon := by
    rw [adig2_eq _ hlon]
    congr 1
    push_cast
    ring
  simp only [latLon2meshCodeSpec]
  rw [s1, t1, s2, t2]
  have s3 : ⌊10.0 * (12.0 * lat - 8.0 * ((adig1 (lat * 1.5) : ℤ) : ℚ) -
      ((adig2 (lat * 1.5) : ℤ) : ℚ)) + EPS⌋ = adig3 (lat * 1.5) := by
    rw [adig3_eq _ hx]
    congr 1
    ring
  have t3 : ⌊10.0 * (8.0 * (lon - (((adig1 lon - 100 : ℤ) : ℚ) + 100)) -
      ((adig2 lon : ℤ) : ℚ)) + EPS⌋ = adig3 lon := by
    rw [adig3_eq _ hlon]
    congr 1
    push_cast
    ring
  rw [s3, t3]
  rw [show (if adig3 (lat * 1.5) = 10 then
        if adig2 (lat * 1.5) + 1 = 8 then (adig1 (lat * 1.5) + 1, (0 : ℤ), (0 : ℤ))
        else (adig1 (lat * 1.5), adig2 (lat * 1.5) + 1, 0)
      else (adig1 (lat * 1.5), adig2 (lat * 1.5), adig3 (lat * 1.5))) = acarry (lat * 1.5) from rfl]
  rw [show (if adig3 lon = 10 then
        if adig2 lon + 1 = 8 then (adig1 lon - 100 + 1, (0 : ℤ), (0 : ℤ))
        else (adig1 lon - 100, adig2 lon + 1, 0)
      else (adig1 lon - 100, adig2 lon, adig3 lon)) =
      ((acarry lon).1 - 100, (acarry lon).2.1, (acarry lon).2.2) by
    unfold acarry
    split_ifs <;> dsimp only <;> simp [Prod.ext_iff] <;> omega]
  dsimp only
  rw [show 120.0 * lat - 80.0 * (((acarry (lat * 1.5)).1 : ℤ) : ℚ) -
      10 * (((acarry (lat * 1.5)).2.1 : ℤ) : ℚ) - (((acarry (lat * 1.5)).2.2 : ℤ) : ℚ) =
      aoff (lat * 1.5) by
    unfold aoff
    ring]
  rw [show 80.0 * (lon - ((((acarry lon).1 - 100 : ℤ) : ℚ) + 100)) -
      10 * (((acarry lon).2.1 : ℤ) : ℚ) - (((acarry lon).2.2 : ℤ) : ℚ) = aoff lon by
    unfold aoff
    push_cast
    ring]

set_option maxHeartbeats 2000000 in
lemma c7core (a1 o1 a2 o2 a3 o3 : ℤ) (ml mo : ℚ)
    (ho1a : 0 ≤ o1) (ho1b : o1 ≤ 99)
    (ha2a : 0 ≤ a2) (ha2b : a2 ≤ 7) (ho2a : 0 ≤ o2) (ho2b : o2 ≤ 7)
    (ha3a : 0 ≤ a3) (ha3b : a3 ≤ 9) (ho3a : 0 ≤ o3) (ho3b : o3 ≤ 9) :
    (tonari_mesh_code (MeshCode.mk (a1 * 100 + o1) (a2 * 10 + o2) (a3 * 10 + o3) ml mo)).2.2 =
      (tonari_mesh_code
        ((tonari_mesh_code (MeshCode.mk (a1 * 100 + o1) (a2 * 10 + o2) (a3 * 10 + o3) ml mo)).1)).2.1 ∧
    (tonari_mesh_code (MeshCode.mk (a1 * 100 + o1) (a2 * 10 + o2) (a3 * 10 + o3) ml mo)).2.2 =
      (tonari_mesh_code
        ((tonari_mesh_code (MeshCode.mk (a1 * 100 + o1) (a2 * 10 + o2) (a3 * 10 + o3) ml mo)).2.1)).1 := by
  refine ⟨?_, ?_⟩ <;>
    apply MeshCode.eq_of_fields <;>
      simp only [tonari_mesh_code] <;>
        first
          | (split_ifs <;> (try dsimp only at *) <;> omega)
          | rfl

/- Claim theorems. -/

/-- Claim C1: for every input coordinate with lat < 20 or lat > 46 or
lon < 120 or lon > 154, bilinear returns the no-coverage result (None, None)
immediately, for every parameter store, before any mesh code is computed or
any parameter lookup is performed (the result does not depend on the store,
and no exception can arise even where mesh-code computation would fail). -/
theorem c1_out_of_box (PAR : ℤ → Option (ℚ × ℚ)) (lat lon : ℚ)
    (h : lat < 20 ∨ lat > 46 ∨ lon < 120 ∨ lon > 154) :
    bilinear PAR lat lon = some none := by
  simp only [bilinear, if_pos h]

theorem c1_witness :
    ((-5 : ℚ) < 20 ∨ (-5 : ℚ) > 46 ∨ (130 : ℚ) < 120 ∨ (130 : ℚ) > 154) ∧
    bilinear (fun _ => some (0, 0)) (-5) 130 = some none :=
  ⟨Or.inl (by norm_num), c1_out_of_box _ _ _ (Or.inl (by norm_num))⟩

/-- Claim C2: interpol with X = 0 and Y = 0 returns u1 exactly; and for
every in-box coordinate whose fractional offset is exactly (0, 0), when the
store maps its mesh code and the three neighbors to (+12.345, -5.678),
(+12.445, -5.578), (+12.545, -5.478), (+12.645, -5.378), bilinear returns
exactly (12.345, -5.678). -/
theorem c2_sw_corner :
    (∀ u1 u2 u3 u4 : ℚ, interpol u1 u2 u3 u4 0 0 = u1) ∧
    ∀ (PAR : ℤ → Option (ℚ × ℚ)) (lat lon : ℚ) (mc : MeshCode),
      ¬(lat < 20 ∨ lat > 46 ∨ lon < 120 ∨ lon > 154) →
      lat_lon2mesh_code lat lon = some mc →
      mc.mod_latitude = 0 → mc.mod_longitude = 0 →
      PAR mc.mesh_code123 = some (12.345, -5.678) →
      PAR (tonari_mesh_code mc).1.mesh_code123 = some (12.445, -5.578) →
      PAR (tonari_mesh_code mc).2.1.mesh_code123 = some (12.545, -5.478) →
      PAR (tonari_mesh_code mc).2.2.mesh_code123 = some (12.645, -5.378) →
      bilinear PAR lat lon = some (some (12.345, -5.678)) := by
  constructor
  · intro u1 u2 u3 u4
    simp [interpol]
  · intro PAR lat lon mc hbox hmesh hmlat hmlon h0 hE hN hNE
    simp only [bilinear, if_neg hbox, hmesh, h0, hE, hN, hNE]
    simp [interpol, hmlat, hmlon]

theorem c2_witness :
    lat_lon2mesh_code 36 138 = some (MeshCode.mk 5438 0 0 0 0) ∧
    bilinear PAR0 36 138 = some (some (12.345, -5.678)) :=
  ⟨mesh_36_138,
   c2_sw_corner.2 PAR0 36 138 (MeshCode.mk 5438 0 0 0 0) (by norm_num) mesh_36_138 rfl rfl
     (by norm_num [PAR0, MeshCode.mesh_code123])
     (by norm_num [PAR0, tonari_mesh_code, MeshCode.mesh_code123])
     (by norm_num [PAR0, tonari_mesh_code, MeshCode.mesh_code123])
     (by norm_num [PAR0, tonari_mesh_code, MeshCode.mesh_code123])⟩

/-- Claim C3 fails as stated: lat_lon2mesh_code is not total on all finite
inputs, and the fractional offsets are not always in [0, 1).  At lat = -1,
lon = 130 the secondary-latitude digit is -4, the assert fires and the
function fails (modelled by none); and at lat = 36 + (5 - EPS/2)/120,
lon = 138 the function succeeds with a fractional latitude offset that is
negative (it equals -EPS/2). -/
theorem c3_counterexample :
    lat_lon2mesh_code (-1) 130 = none ∧
    ∃ mc, lat_lon2mesh_code ((865 * 10 ^ 12 - 1) / (24 * 10 ^ 12)) 138 = some mc ∧
      mc.mod_latitude < 0 := by
  constructor
  · norm_num [lat_lon2mesh_code, trunc, EPS]
  · refine ⟨MeshCode.mk 5438 0 50 (-(5 / 10 ^ 12)) 0, ?_, by norm_num⟩
    norm_num [lat_lon2mesh_code, trunc, EPS]

/-- Claim C3, amended: for every lat ≥ 0 and lon ≥ 0, lat_lon2mesh_code
succeeds (its internal assertions do not fire) and returns a MeshCode whose
secondary digits are each in [0, 7], whose tertiary digits are each in
[0, 9], and whose fractional offsets are each in [-EPS, 1). -/
theorem c3_amended (lat lon : ℚ) (hlat : 0 ≤ lat) (hlon : 0 ≤ lon) :
    ∃ mc, lat_lon2mesh_code lat lon = some mc ∧
      (0 ≤ mc.mesh_code2 / 10 ∧ mc.mesh_code2 / 10 ≤ 7 ∧
       0 ≤ mc.mesh_code2 % 10 ∧ mc.mesh_code2 % 10 ≤ 7 ∧
       0 ≤ mc.mesh_code3 / 10 ∧ mc.mesh_code3 / 10 ≤ 9 ∧
       0 ≤ mc.mesh_code3 % 10 ∧ mc.mesh_code3 % 10 ≤ 9) ∧
      (-EPS ≤ mc.mod_latitude ∧ mc.mod_latitude < 1 ∧
       -EPS ≤ mc.mod_longitude ∧ mc.mod_longitude < 1) := by
  have hx : (0 : ℚ) ≤ lat * 1.5 := by linarith
  obtain ⟨la0, la7, lb0, lb9⟩ := acarry_digit_bounds (lat * 1.5) hx
  obtain ⟨oa0, oa7, ob0, ob9⟩ := acarry_digit_bounds lon hlon
  obtain ⟨ml0, ml1⟩ := aoff_bounds (lat * 1.5) hx
  obtain ⟨mo0, mo1⟩ := aoff_bounds lon hlon
  rw [lat_lon2mesh_code_eq, if_pos ⟨la0, la7, oa0, oa7, lb0, lb9, ob0, ob9⟩]
  refine ⟨_, rfl, ?_, ?_⟩
  · dsimp only
    refine ⟨?_, ?_, ?_, ?_, ?_, ?_, ?_, ?_⟩ <;> omega
  · dsimp only
    exact ⟨ml0, ml1, mo0, mo1⟩

theorem c3_witness :
    (0 : ℚ) ≤ 36.5 ∧ (0 : ℚ) ≤ 139.25 ∧
    ∃ mc, lat_lon2mesh_code 36.5 139.25 = some mc ∧
      (0 ≤ mc.mesh_code2 / 10 ∧ mc.mesh_code2 / 10 ≤ 7 ∧
       0 ≤ mc.mesh_code2 % 10 ∧ mc.mesh_code2 % 10 ≤ 7 ∧
       0 ≤ mc.mesh_code3 / 10 ∧ mc.mesh_code3 / 10 ≤ 9 ∧
       0 ≤ mc.mesh_code3 % 10 ∧ mc.mesh_code3 % 10 ≤ 9) ∧
      (-EPS ≤ mc.mod_latitude ∧ mc.mod_latitude < 1 ∧
       -EPS ≤ mc.mod_longitude ∧ mc.mod_longitude < 1) :=
  ⟨by norm_num, by norm_num, c3_amended 36.5 139.25 (by norm_num) (by norm_num)⟩

/-- Claim C4: for nonnegative inputs (which include the whole domain box),
lat_lon2mesh_code computes exactly what section 4.1 of the specification
prescribes: tertiary digits obtained by adding EPS = 1e-11 before
truncation, followed by the carry normalization (lat3 = 10 resets to 0 and
increments lat2; lat2 reaching 8 resets to 0 and increments lat1; and the
symmetric rule for lon3, lon2, lon1), as captured by the spec-worded
definition latLon2meshCodeSpec. -/
theorem c4_eps_carry (lat lon : ℚ) (hlat : 0 ≤ lat) (hlon : 0 ≤ lon) :
    lat_lon2mesh_code lat lon = some (latLon2meshCodeSpec lat lon) := by
  have hx : (0 : ℚ) ≤ lat * 1.5 := by linarith
  obtain ⟨la0, la7, lb0, lb9⟩ := acarry_digit_bounds (lat * 1.5) hx
  obtain ⟨oa0, oa7, ob0, ob9⟩ := acarry_digit_bounds lon hlon
  rw [lat_lon2mesh_code_eq, latLon2meshCodeSpec_eq lat lon hlat hlon,
    if_pos ⟨la0, la7, oa0, oa7, lb0, lb9, ob0, ob9⟩]

theorem c4_witness :
    (0 : ℚ) ≤ 36.5 ∧ (0 : ℚ) ≤ 139.25 ∧
    lat_lon2mesh_code 36.5 139.25 = some (latLon2meshCodeSpec 36.5 139.25) :=
  ⟨by norm_num, by norm_num, c4_eps_carry 36.5 139.25 (by norm_num) (by norm_num)⟩

/-- Claim C5: for every in-box coordinate, if any of the four combined mesh
codes (the cell of the point or its east, north or north-east neighbor) is
absent from the parameter store, bilinear returns the no-coverage result
(None, None) and does not raise an exception. -/
theorem c5_missing_corner (PAR : ℤ → Option (ℚ × ℚ)) (lat lon : ℚ) (mc : MeshCode)
    (hbox : ¬(lat < 20 ∨ lat > 46 ∨ lon < 120 ∨ lon > 154))
    (hmesh : lat_lon2mesh_code lat lon = some mc)
    (habs : PAR mc.mesh_code123 = none ∨
            PAR (tonari_mesh_code mc).1.mesh_code123 = none ∨
            PAR (tonari_mesh_code mc).2.1.mesh_code123 = none ∨
            PAR (tonari_mesh_code mc).2.2.mesh_code123 = none) :
    bilinear PAR lat lon = some none := by
  simp only [bilinear, if_neg hbox, hmesh]
  rcases h0 : PAR mc.mesh_code123 with _ | p0 <;>
    rcases hE : PAR (tonari_mesh_code mc).1.mesh_code123 with _ | pE <;>
      rcases hN : PAR (tonari_mesh_code mc).2.1.mesh_code123 with _ | pN <;>
        rcases hNE : PAR (tonari_mesh_code mc).2.2.mesh_code123 with _ | pNE <;>
          simp_all

theorem c5_witness :
    lat_lon2mesh_code 36 138 = some (MeshCode.mk 5438 0 0 0 0) ∧
    bilinear (fun k => if k = 54380000 then some (1, 2) else none) 36 138 = some none :=
  ⟨mesh_36_138,
   c5_missing_corner _ 36 138 (MeshCode.mk 5438 0 0 0 0) (by norm_num) mesh_36_138
     (Or.inr (Or.inl (by norm_num [tonari_mesh_code, MeshCode.mesh_code123])))⟩

/-- Claim C6: for every MeshCode with digits in range, the east neighbor
returned by tonari_mesh_code is built from the longitude digit chain
incremented by exactly one carry-aware mesh step (as described by
incr_digits) with the latitude digits unchanged; the north neighbor is the
symmetric statement; the north-east neighbor increments both chains; and
all three neighbors carry fractional offset (0, 0) (built into pack_mesh). -/
theorem c6_neighbor_step (mc : MeshCode)
    (h1 : 0 ≤ mc.mesh_code2 / 10) (h2 : mc.mesh_code2 / 10 ≤ 7)
    (h3 : 0 ≤ mc.mesh_code2 % 10) (h4 : mc.mesh_code2 % 10 ≤ 7)
    (h5 : 0 ≤ mc.mesh_code3 / 10) (h6 : mc.mesh_code3 / 10 ≤ 9)
    (h7 : 0 ≤ mc.mesh_code3 % 10) (h8 : mc.mesh_code3 % 10 ≤ 9) :
    (tonari_mesh_code mc).1 = pack_mesh (lat_digits mc) (incr_digits (lon_digits mc)) ∧
    (tonari_mesh_code mc).2.1 = pack_mesh (incr_digits (lat_digits mc)) (lon_digits mc) ∧
    (tonari_mesh_code mc).2.2 =
      pack_mesh (incr_digits (lat_digits mc)) (incr_digits (lon_digits mc)) := by
  refine ⟨?_, ?_, ?_⟩ <;>
    apply MeshCode.eq_of_fields <;>
      simp only [tonari_mesh_code, pack_mesh, incr_digits, lat_digits, lon_digits] <;>
        first
          | (split_ifs <;> dsimp only <;> omega)
          | rfl

theorem c6_witness :
    (tonari_mesh_code (MeshCode.mk 5438 77 99 0 0)).1 =
      pack_mesh (lat_digits (MeshCode.mk 5438 77 99 0 0))
        (incr_digits (lon_digits (MeshCode.mk 5438 77 99 0 0))) ∧
    (tonari_mesh_code (MeshCode.mk 5438 77 99 0 0)).2.1 =
      pack_mesh (incr_digits (lat_digits (MeshCode.mk 5438 77 99 0 0)))
        (lon_digits (MeshCode.mk 5438 77 99 0 0)) ∧
    (tonari_mesh_code (MeshCode.mk 5438 77 99 0 0)).2.2 =
      pack_mesh (incr_digits (lat_digits (MeshCode.mk 5438 77 99 0 0)))
        (incr_digits (lon_digits (MeshCode.mk 5438 77 99 0 0))) :=
  c6_neighbor_step _ (by norm_num) (by norm_num) (by norm_num) (by norm_num)
    (by norm_num) (by norm_num) (by norm_num) (by norm_num)

/-- Claim C7: for every MeshCode with digits in range, the north-east
neighbor computed by tonari_mesh_code through independent increments of
both digit chains equals the north neighbor of the east neighbor, and
equally the east neighbor of the north neighbor. -/
theorem c7_diagonal_commutes (mc : MeshCode)
    (h1 : 0 ≤ mc.mesh_code2 / 10) (h2 : mc.mesh_code2 / 10 ≤ 7)
    (h3 : 0 ≤ mc.mesh_code2 % 10) (h4 : mc.mesh_code2 % 10 ≤ 7)
    (h5 : 0 ≤ mc.mesh_code3 / 10) (h6 : mc.mesh_code3 / 10 ≤ 9)
    (h7 : 0 ≤ mc.mesh_code3 % 10) (h8 : mc.mesh_code3 % 10 ≤ 9) :
    (tonari_mesh_code mc).2.2 = (tonari_mesh_code ((tonari_mesh_code mc).1)).2.1 ∧
    (tonari_mesh_code mc).2.2 = (tonari_mesh_code ((tonari_mesh_code mc).2.1)).1 := by
  obtain ⟨m1, m2, m3, ml, mo⟩ := mc
  simp only at h1 h2 h3 h4 h5 h6 h7 h8
  have key := c7core (m1 / 100) (m1 % 100) (m2 / 10) (m2 % 10) (m3 / 10) (m3 % 10) ml mo
    (by omega) (by omega) h1 h2 h3 h4 h5 h6 h7 h8
  have e : MeshCode.mk (m1 / 100 * 100 + m1 % 100) (m2 / 10 * 10 + m2 % 10)
      (m3 / 10 * 10 + m3 % 10) ml mo = MeshCode.mk m1 m2 m3 ml mo := by
    apply MeshCode.eq_of_fields <;> simp <;> omega
  rw [e] at key
  exact key

theorem c7_witness :
    (tonari_mesh_code (MeshCode.mk 5977 17 59 0 0)).2.2 =
      (tonari_mesh_code ((tonari_mesh_code (MeshCode.mk 5977 17 59 0 0)).1)).2.1 ∧
    (tonari_mesh_code (MeshCode.mk 5977 17 59 0 0)).2.2 =
      (tonari_mesh_code ((tonari_mesh_code (MeshCode.mk 5977 17 59 0 0)).2.1)).1 :=
  c7_diagonal_commutes _ (by norm_num) (by norm_num) (by norm_num) (by norm_num)
    (by norm_num) (by norm_num) (by norm_num) (by norm_num)

/-- Claim C8: the conversion facade returns lat + dB/3600 and lon + dL/3600
when bilinear yields a correction, and emits the sentinel pair
(-9999.0, -9999.0) when bilinear yields no coverage. -/
theorem c8_facade (PAR : ℤ → Option (ℚ × ℚ)) (lat lon : ℚ) :
    (bilinear PAR lat lon = some none →
      main_output PAR lat lon = some (-9999.0, -9999.0)) ∧
    (∀ dB dL : ℚ, bilinear PAR lat lon = some (some (dB, dL)) →
      main_output PAR lat lon = some (lat + dB / 3600, lon + dL / 3600)) := by
  constructor
  · intro h
    simp [main_output, h]
  · intro dB dL h
    simp [main_output, h]

theorem c8_witness :
    main_output (fun _ => none) 10 130 = some (-9999.0, -9999.0) ∧
    main_output PAR0 36 138 = some (36 + 12.345 / 3600, 138 + (-5.678) / 3600) :=
  ⟨(c8_facade _ 10 130).1 (by norm_num [bilinear]),
   (c8_facade PAR0 36 138).2 12.345 (-5.678)
     (by simp only [bilinear, mesh_36_138]
         norm_num [tonari_mesh_code, MeshCode.mesh_code123, PAR0, interpol])⟩

/-- Claim C9: load_parameter stores an entry (the integer code mapped to a
pair of rationals) for each line matching the record pattern, and silently
skips every non-matching line without surfacing an error: filtering out the
non-matching lines does not change the resulting store, and the code of
every matching line is present in the final store. -/
theorem c9_loader (ls : List (List Char)) :
    load_parameter ls = load_parameter (ls.filter (fun l => (parLineParse l).isSome)) ∧
    ∀ l ∈ ls, ∀ (c : ℤ) (v1 v2 : ℚ), parLineParse l = some (c, v1, v2) →
      ∃ p : ℚ × ℚ, load_parameter ls c = some p := by
  constructor
  · exact load_foldl_filter ls _
  · intro l hmem c v1 v2 hp
    have h := load_foldl_mem ls (fun _ => none) l c v1 v2 hmem hp
    exact Option.isSome_iff_exists.mp h

theorem c9_witness :
    (∀ l ∈ [[' ', 'j', 'u', 'n', 'k'], ['1', '0', '1', '0', '1', ' ', '1', '.', '1', ' ', '2', '.', '2', 'x']],
      ∀ (c : ℤ) (v1 v2 : ℚ), parLineParse l = some (c, v1, v2) →
      ∃ p : ℚ × ℚ,
        load_parameter [[' ', 'j', 'u', 'n', 'k'], ['1', '0', '1', '0', '1', ' ', '1', '.', '1', ' ', '2', '.', '2', 'x']] c = some p) ∧
    load_parameter [[' ', 'j', 'u', 'n', 'k'], ['1', '0', '1', '0', '1', ' ', '1', '.', '1', ' ', '2', '.', '2', 'x']] 10101 = some (1.1, 2.2) :=
  ⟨(c9_loader _).2, by
    simp [load_parameter, load_step, parLineParse, munchDigits, munchSpaces,
      munchDecimal, decValue, natOfDigits, isSpaceChar,
      List.takeWhile_cons, List.dropWhile_cons]
    norm_num⟩

/-- Claim C10 fails as stated: two MeshCode values that differ only in
their fractional offsets have equal combined codes yet are not equal, so
equality is not equivalent to equality of combined codes. -/
theorem c10_counterexample :
    MeshCode.mesh_code123 (MeshCode.mk 5438 0 0 0 0) =
      MeshCode.mesh_code123 (MeshCode.mk 5438 0 0 (1 / 2) 0) ∧
    MeshCode.mk 5438 0 0 0 0 ≠ MeshCode.mk 5438 0 0 (1 / 2) 0 := by
  constructor
  · rfl
  · intro h
    simp only [MeshCode.mk.injEq] at h
    norm_num at h

/-- Claim C10, amended: two MeshCode values whose secondary and tertiary
fields lie in [0, 99] (the packed-digit range) and whose fractional offsets
agree are equal if and only if their combined codes are equal. -/
theorem c10_amended (m1 m2 : MeshCode)
    (h1a : 0 ≤ m1.mesh_code2) (h1b : m1.mesh_code2 ≤ 99)
    (h1c : 0 ≤ m1.mesh_code3) (h1d : m1.mesh_code3 ≤ 99)
    (h2a : 0 ≤ m2.mesh_code2) (h2b : m2.mesh_code2 ≤ 99)
    (h2c : 0 ≤ m2.mesh_code3) (h2d : m2.mesh_code3 ≤ 99)
    (hlat : m1.mod_latitude = m2.mod_latitude)
    (hlon : m1.mod_longitude = m2.mod_longitude) :
    m1 = m2 ↔ m1.mesh_code123 = m2.mesh_code123 := by
  obtain ⟨a1, a2, a3, a4, a5⟩ := m1
  obtain ⟨b1, b2, b3, b4, b5⟩ := m2
  simp only at h1a h1b h1c h1d h2a h2b h2c h2d hlat hlon
  subst hlat hlon
  simp only [MeshCode.mk.injEq, MeshCode.mesh_code123, and_true]
  constructor
  · rintro ⟨rfl, rfl, rfl⟩
    rfl
  · intro h
    refine ⟨?_, ?_, ?_⟩ <;> omega

theorem c10_witness :
    (MeshCode.mk 5438 0 1 0 0 = MeshCode.mk 5438 0 1 0 0 ↔
      MeshCode.mesh_code123 (MeshCode.mk 5438 0 1 0 0) =
        MeshCode.mesh_code123 (MeshCode.mk 5438 0 1 0 0)) :=
  c10_amended _ _ (by norm_num) (by norm_num) (by norm_num) (by norm_num)
    (by norm_num) (by norm_num) (by norm_num) (by norm_num) rfl rfl
